import Mathlib

/-!
# gocksnap: record / replay snapshots of outbound HTTP calls

A shallow embedding of `gocksnap.go`, `mock.go` and `server.go`.

* Go strings are sequences of characters; opaque payloads (`json.RawMessage`,
  URLs, header values) are kept as `String`.
* `map[string][]string` is an association list.
* A pointer that may be `nil` is an `Option`; dereferencing `nil` is a panic.
* A buffered channel of capacity one is a slot holding at most one value; the
  channels created by `make` live in a store and are named by their index.
* Code that runs between `g.mu.Lock()` and `g.mu.Unlock()` is one atomic step.
* Functions of the standard library and of the interception framework whose
  result the repository only passes along (JSON encoding, the file system, the
  listener) are fields of an environment `Env`.
-/

namespace Gocksnap

/-! ## Data model (`gocksnap.go`, `server.go`, `mock.go`) -/

/-- Multimap of header or query-parameter names to their values. -/
abbrev Values := List (String × List String)

/-- One intercepted request (`type Request struct`). -/
structure Request where
  Method : String
  URL : String
  Body : String
  Headers : Values
  QueryParams : Values
deriving DecidableEq, Repr

/-- The response chosen for a request (`type MockedCall struct`). -/
structure MockedCall where
  Status : Int
  Body : String
  MatchingHeaders : Values
  MatchingQueryParams : Values
deriving DecidableEq, Repr

/-- One request with its response (`type Call struct`, two embedded structs). -/
structure Call where
  Request : Request
  MockedCall : MockedCall
deriving DecidableEq, Repr

/-- Name of a channel in the channel store. -/
abbrev Chan := Nat

/-- The request waiting for the operator (`type CallPrompt struct`). -/
structure CallPrompt where
  Name : String
  Request : Request
  ExistingResponse : Option MockedCall
  finalCall : Chan
deriving DecidableEq, Repr

/-- A subscriber of the `/events` stream: a `chan string` of capacity one. -/
structure SSEConn where
  id : Nat
  buf : Option String
deriving DecidableEq, Repr

/-- State of a snapshot (`type Snapshot struct`); the mutex is implicit in the
atomicity of the steps. -/
structure Snapshot where
  Calls : List Call
  testName : String
  name : String
  updateMode : Bool
  pending : Option CallPrompt
  sseConns : List SSEConn
deriving DecidableEq, Repr

/-! ## Strings and paths -/

/-- Inner loop of `strings.ReplaceAll` for a non-empty `old`: `skip` counts the
characters of a match that are still to be dropped. -/
def replaceFrom (old new : List Char) : Nat → List Char → List Char
  | _, [] => []
  | skip + 1, _ :: cs => replaceFrom old new skip cs
  | 0, c :: cs =>
    if old.isPrefixOf (c :: cs) then new ++ replaceFrom old new (old.length - 1) cs
    else c :: replaceFrom old new 0 cs

/-- Go `strings.ReplaceAll(s, old, new)`: every non-overlapping occurrence of
`old`, left to right; an empty `old` matches before every character and at the
end. -/
def ReplaceAll (s old new : List Char) : List Char :=
  if old = [] then new ++ s.flatMap (fun c => c :: new) else replaceFrom old new 0 s

/-- Path separator of `path/filepath` on Unix. -/
def Separator : Char := '/'

/-- Split a path at every separator. -/
def splitSep : List Char → List (List Char)
  | [] => [[]]
  | c :: cs =>
    if c = Separator then [] :: splitSep cs
    else
      match splitSep cs with
      | [] => [[c]]
      | h :: t => (c :: h) :: t

/-- One element of a path pushed on the stack of kept elements (top first), as
`filepath.Clean` does: empty and `.` elements vanish, `..` removes the element
before it when there is one that is not itself `..`. -/
def cleanStep (rooted : Bool) (stack : List (List Char)) (c : List Char) : List (List Char) :=
  if c = [] ∨ c = ['.'] then stack
  else if c = ['.', '.'] then
    match stack with
    | [] => if rooted then [] else [c]
    | top :: rest => if top = ['.', '.'] then c :: stack else rest
  else c :: stack

/-- Go `filepath.Clean` on Unix: the shortest path naming the same file by
purely lexical processing. -/
def Clean (path : List Char) : List Char :=
  if path = [] then ['.']
  else
    let rooted := path.head? = some Separator
    let kept := ((splitSep path).foldl (cleanStep rooted) []).reverse
    let body := [Separator].intercalate kept
    if rooted then Separator :: body
    else if body = [] then ['.'] else body

/-- Go `filepath.Join` on Unix: from the first non-empty element on, the
elements are joined with the separator and the result is cleaned. -/
def filepathJoin : List (List Char) → List Char
  | [] => []
  | e :: es => if e = [] then filepathJoin es else Clean ([Separator].intercalate (e :: es))

/-- The directory of the snapshot files. -/
def defaultSnapshotDirectory : String := "__snapshots__"

/-- The file-name stem of `file`: test name, dash, snapshot name, with spaces
and slashes replaced by underscores. -/
def fileStem (testName name : String) : List Char :=
  ReplaceAll (ReplaceAll (testName.data ++ "-".data ++ name.data) " ".data "_".data) "/".data "_".data

/-- Path of the snapshot file (`func (g *Snapshot) file() string`). -/
def Snapshot.file (g : Snapshot) : String :=
  String.mk (filepathJoin [defaultSnapshotDirectory.data, fileStem g.testName g.name ++ ".json".data])

/-! ## Environment, faults and channels -/

/-- The snapshot together with the result channels made so far: slot `i` is the
buffer of channel `i`. -/
structure World where
  snap : Snapshot
  conduits : List (Option Call)
deriving DecidableEq, Repr

/-- How a goroutine stops short of returning. -/
inductive Fault where
  /-- A run-time panic. -/
  | panic (msg : String)
  /-- The goroutine waits on a channel that nobody serves. -/
  | blocked
  /-- The caller of `promptCall` still waits on its result channel, in the state
  `w`, when the actions of the operator have run out. -/
  | waiting (w : World)
  /-- The test was ended by `t.Fatalf`. -/
  | fatal (msg : String)
deriving DecidableEq, Repr

/-- The library functions the repository calls and whose result it passes on. -/
structure Env where
  /-- Value of `os.Getenv("UPDATE_GOCKSNAP")`. -/
  UPDATE_GOCKSNAP : String
  /-- Whether `os.Stat(path)` fails with an error for which `os.IsNotExist` holds. -/
  statNotExist : String → Bool
  /-- The result of `os.ReadFile(path)`. -/
  readFile : String → Except String String
  /-- The `Calls` that `json.Unmarshal(data, snapshot)` leaves in the snapshot. -/
  unmarshalCalls : String → Except String (List Call)
  /-- The result of `json.MarshalIndent(g, "", "  ")` for a snapshot with these calls. -/
  marshalIndent : List Call → Except String String
  /-- The result of `json.Marshal` on a raw message. -/
  marshalRaw : String → Except String String
  /-- The result of `json.NewEncoder(w).Encode` on a prompt. -/
  encodePrompt : CallPrompt → Except String String
  /-- The result of `json.NewDecoder(body).Decode(&payload)`. -/
  decodeMockedCall : String → Except String MockedCall
  /-- The result of `net.Listen("tcp", "127.0.0.1:0")`: the address bound. -/
  listen : Except String String
  /-- The error of `os.WriteFile(path, data, 0o600)`, if any. -/
  writeFile : String → String → Option String
  /-- The embedded `index.html`. -/
  indexHTML : String
  /-- Go `strings.ToUpper`. -/
  toUpper : String → String

/-- Send `v` on a `chan *Call` of capacity one: it goes into the empty buffer; on
a full buffer, and on a channel that was never made, the sender waits. -/
def send (conduits : List (Option Call)) (ch : Chan) (v : Call) :
    Except Fault (List (Option Call)) :=
  match conduits[ch]? with
  | some none => .ok (conduits.set ch (some v))
  | _ => .error .blocked

/-- Receive from channel `ch` when its buffer holds a value. -/
def recv (w : World) (ch : Chan) : Option (World × Call) :=
  match w.conduits[ch]? with
  | some (some c) => some ({ w with conduits := w.conduits.set ch none }, c)
  | _ => none

/-- The loop `select { case ch <- "pending": default: }` over all subscribers: a
subscriber with an empty buffer gets the message, the others are skipped. -/
def notifyAll (conns : List SSEConn) : List SSEConn :=
  conns.map fun c =>
    match c.buf with
    | none => { c with buf := some "pending" }
    | some _ => c

/-! ## `promptCall` (`gocksnap.go`) -/

/-- The parts of an `*http.Request` that `promptCall` reads: `URL` is
`req.URL.String()` once the query is removed, `Query` is `req.URL.Query()`. -/
structure HTTPRequest where
  Method : String
  URL : String
  Body : Option String
  Header : Values
  Query : Values
deriving DecidableEq, Repr

/-- Message of the panic raised by a `nil` dereference. -/
def nilDereference : String := "runtime error: invalid memory address or nil pointer dereference"

/-- The part of `promptCall` under the lock: make the result channel, store the
prompt in `g.pending`, notify the subscribers. `&existingCall.MockedCall`
evaluates a field of `*existingCall`, which panics when `existingCall` is `nil`;
nothing has been assigned by then. Returns the channel the caller then reads. -/
def promptCallBegin (w : World) (req : HTTPRequest) (existingCall : Option Call) :
    Except Fault (World × Chan) :=
  let bodyRaw := match req.Body with
    | some b => b
    | none => ""
  let finalCall : Chan := w.conduits.length
  match existingCall with
  | none => .error (.panic nilDereference)
  | some existing =>
    let prompt : CallPrompt :=
      { Name := w.snap.name
        Request :=
          { Method := req.Method, URL := req.URL, Body := bodyRaw, Headers := req.Header,
            QueryParams := req.Query }
        ExistingResponse := some existing.MockedCall
        finalCall := finalCall }
    .ok ({ snap := { w.snap with pending := some prompt, sseConns := notifyAll w.snap.sseConns }
           conduits := w.conduits ++ [none] }, finalCall)

/-! ## The prompt server (`server.go`) -/

/-- Status and body of an HTTP answer. -/
structure HTTPResponse where
  status : Nat
  body : String
deriving DecidableEq, Repr

/-- Go `http.Error(w, msg, code)`. -/
def httpError (msg : String) (code : Nat) : HTTPResponse := ⟨code, msg ++ "\n"⟩

/-- Handler of `/`. -/
def handleIndex (env : Env) (w : World) : Except Fault (World × HTTPResponse) :=
  .ok (w, ⟨200, env.indexHTML⟩)

/-- Handler of `/current`. -/
def handleCurrent (env : Env) (w : World) : Except Fault (World × HTTPResponse) :=
  match w.snap.pending with
  | none => .ok (w, httpError "no snapshot pending" 404)
  | some p =>
    match env.encodePrompt p with
    | .error _ => .ok (w, httpError "failed to encode pending call" 500)
    | .ok doc => .ok (w, ⟨200, doc⟩)

/-- Handler of `/new`. -/
def handleNew (env : Env) (w : World) (body : String) : Except Fault (World × HTTPResponse) :=
  match env.decodeMockedCall body with
  | .error _ => .ok (w, httpError "Invalid JSON payload" 400)
  | .ok payload =>
    match w.snap.pending with
    | some p =>
      match send w.conduits p.finalCall { Request := p.Request, MockedCall := payload } with
      | .error e => .error e
      | .ok conduits =>
        .ok ({ snap := { w.snap with pending := none }, conduits := conduits }, ⟨200, "ok"⟩)
    | none => .ok (w, ⟨200, "ok"⟩)

/-- Handler of `/existing`. -/
def handleExisting (env : Env) (w : World) (body : String) :
    Except Fault (World × HTTPResponse) :=
  match env.decodeMockedCall body with
  | .error _ => .ok (w, httpError "Invalid JSON payload" 400)
  | .ok payload =>
    match w.snap.pending with
    | none => .ok (w, httpError "no snapshot pending" 404)
    | some p =>
      match p.ExistingResponse with
      | none => .ok (w, httpError "no existing response available" 404)
      | some _ =>
        match send w.conduits p.finalCall { Request := p.Request, MockedCall := payload } with
        | .error e => .error e
        | .ok conduits =>
          .ok ({ snap := { w.snap with pending := none }, conduits := conduits }, ⟨200, "ok"⟩)

/-- A fresh subscriber identity. -/
def freshConn (conns : List SSEConn) : Nat := (conns.map (·.id)).foldr max 0 + 1

/-- Handler of `/events`, first part, for a writer that can flush (as every
writer of the `net/http` server can): the new channel enters `g.sseConns`. -/
def eventsOpen (w : World) : World :=
  { w with snap := { w.snap with sseConns := w.snap.sseConns ++ [⟨freshConn w.snap.sseConns, none⟩] } }

/-- Handler of `/events`, loop: the message waiting in the channel of subscriber
`id` is written to the client. -/
def eventsRecv (w : World) (id : Nat) : Option (World × String) :=
  match w.snap.sseConns.find? (fun c => c.id = id) with
  | some ⟨_, some msg⟩ =>
    some ({ w with snap := { w.snap with sseConns := w.snap.sseConns.map fun c =>
              if c.id = id then { c with buf := none } else c } },
          "data: " ++ msg ++ "\n\n")
  | _ => none

/-- Handler of `/events`, deferred part: the client is gone, the channel leaves
`g.sseConns`. -/
def eventsClose (w : World) (id : Nat) : World :=
  { w with snap := { w.snap with sseConns := w.snap.sseConns.filter (fun c => c.id ≠ id) } }

/-- What a client of the prompt server can do. -/
inductive Action where
  | getIndex
  | getCurrent
  | postNew (body : String)
  | postExisting (body : String)
  | eventsOpen
  | eventsRecv (id : Nat)
  | eventsClose (id : Nat)
deriving DecidableEq, Repr

/-- The prompt server answering one action of a client. -/
def serve (env : Env) (w : World) : Action → Except Fault (World × HTTPResponse)
  | .getIndex => handleIndex env w
  | .getCurrent => handleCurrent env w
  | .postNew body => handleNew env w body
  | .postExisting body => handleExisting env w body
  | .eventsOpen => .ok (eventsOpen w, ⟨200, ""⟩)
  | .eventsRecv id =>
    match eventsRecv w id with
    | some (w2, chunk) => .ok (w2, ⟨200, chunk⟩)
    | none => .ok (w, ⟨200, ""⟩)
  | .eventsClose id => .ok (eventsClose w id, ⟨200, ""⟩)

/-- The final `return <-finalCall` of `promptCall`, with the actions of the
operator that arrive while the caller waits: the caller returns as soon as the
channel holds a value, and is left waiting, in the state reached, when the
actions run out before. -/
def awaitFinal (env : Env) (ch : Chan) : World → List Action → Except Fault (World × Call)
  | w, acts =>
    match recv w ch with
    | some r => .ok r
    | none =>
      match acts with
      | [] => .error (.waiting w)
      | a :: rest =>
        match serve env w a with
        | .error e => .error e
        | .ok (w2, _) => awaitFinal env ch w2 rest

/-- Go `func (g *Snapshot) promptCall(req, existingCall) *Call`, run against the
actions `ui` of the operator. -/
def promptCall (env : Env) (w : World) (req : HTTPRequest) (existingCall : Option Call)
    (ui : List Action) : Except Fault (World × Call) :=
  match promptCallBegin w req existingCall with
  | .error e => .error e
  | .ok (w1, ch) => awaitFinal env ch w1 ui

/-! ## The recording adapter (`mock.go`) -/

/-- The adapter `type recordMocker struct`; its snapshot is the one of the world
it runs in, `disabled` is the flag of its `disabler`. -/
structure recordMocker where
  disabled : Bool
  existingCall : Option Call
  call : Option Call
deriving DecidableEq, Repr

/-- Go `func (g *Snapshot) newRecordMock(existingCall *Call) *recordMocker`. -/
def newRecordMock (existingCall : Option Call) : recordMocker :=
  { disabled := false, existingCall := existingCall, call := none }

/-- Go `func (r *recordMocker) Disable()`. -/
def recordMocker.Disable (r : recordMocker) : recordMocker := { r with disabled := true }

/-- Go `func (r *recordMocker) Done() bool`. -/
def recordMocker.Done (r : recordMocker) : Bool :=
  if r.disabled then true else r.call.isSome

/-- The fields of `gock.Response` that the adapter fills. -/
structure GockResponse where
  StatusCode : Int
  BodyBuffer : String
deriving DecidableEq, Repr

/-- Go `func (r *recordMocker) Response() *gock.Response`. -/
def recordMocker.Response (env : Env) (r : recordMocker) : GockResponse :=
  match r.call with
  | none => { StatusCode := 0, BodyBuffer := "" }
  | some c =>
    let body := match env.marshalRaw c.MockedCall.Body with
      | .ok b => b
      | .error e => "Error marshalling response: " ++ e
    { StatusCode := c.MockedCall.Status, BodyBuffer := body }

/-- Go `func (r *recordMocker) Match(req *http.Request) (bool, error)`, run
against the actions `ui` of the operator; the error returned is always `nil`. -/
def recordMocker.Match (env : Env) (r : recordMocker) (w : World) (req : HTTPRequest)
    (ui : List Action) : Except Fault (recordMocker × World × Bool) :=
  if r.disabled then .ok (r, w, false)
  else
    match promptCall env w req r.existingCall ui with
    | .error e => .error e
    | .ok (w2, c) => .ok ({ r with call := some c }, w2, true)

/-! ## `MatchSnapshot` and `Finish` (`gocksnap.go`) -/

/-- What `MatchSnapshot` hands to the framework for one stored call: the
arguments of `NewRequest().URL(..).JSON(..)`, `Method`, `MatchHeader`,
`MatchParam`, and of `NewResponse().Status(..).JSON(..)`. -/
structure StaticMock where
  URL : String
  requestJSON : String
  Method : String
  MatchHeader : List (String × String)
  MatchParam : List (String × String)
  Status : Int
  responseJSON : String
  disabled : Bool
deriving DecidableEq, Repr

/-- A mock in the registry of the framework. -/
inductive Mock where
  | static (m : StaticMock)
  | record (r : recordMocker)
deriving DecidableEq, Repr

/-- The method `Disable` of a registered mock. -/
def Mock.Disable : Mock → Mock
  | .static m => .static { m with disabled := true }
  | .record r => .record r.Disable

/-- The static mock registered for a stored call in replay mode. -/
def staticMock (env : Env) (call : Call) : StaticMock :=
  { URL := call.Request.URL
    requestJSON := call.Request.Body
    Method := env.toUpper call.Request.Method
    MatchHeader := call.MockedCall.MatchingHeaders.map fun kv => (kv.1, ",".intercalate kv.2)
    MatchParam := call.MockedCall.MatchingQueryParams.map fun kv => (kv.1, ",".intercalate kv.2)
    Status := call.MockedCall.Status
    responseJSON := call.MockedCall.Body
    disabled := false }

/-- What `MatchSnapshot` leaves behind: the snapshot it returns, the variables
`existingCalls` and `existingCall` captured by the observer, and what it did to
the framework and the machine. -/
structure Session where
  world : World
  existingCalls : List Call
  existingCall : Option Call
  mocks : List Mock
  intercepting : Bool
  observing : Bool
  serverAddr : Option String
  browser : Option String
deriving DecidableEq, Repr

/-- Go `func MatchSnapshot(t *testing.T, snapshotName string) *Snapshot`;
`testName` is `t.Name()` and `gockPending` the mocks `gock.Pending()` returns. -/
def MatchSnapshot (env : Env) (gockPending : List Mock) (testName snapshotName : String) :
    Except Fault Session :=
  let snapshot : Snapshot :=
    { Calls := [], testName := testName, name := snapshotName,
      updateMode := env.UPDATE_GOCKSNAP == "true", pending := none, sseConns := [] }
  let loaded : Except Fault (Snapshot × List Call) :=
    if env.statNotExist snapshot.file then .ok ({ snapshot with updateMode := true }, [])
    else
      match env.readFile snapshot.file with
      | .error e => .error (.fatal ("Failed to open snapshot '" ++ snapshot.file ++ "': " ++ e))
      | .ok data =>
        match env.unmarshalCalls data with
        | .error e =>
          .error (.fatal ("Failed to unmarshal snapshot '" ++ snapshot.file ++ "': " ++ e))
        | .ok calls =>
          if snapshot.updateMode then .ok ({ snapshot with Calls := [] }, calls)
          else .ok ({ snapshot with Calls := calls }, [])
  match loaded with
  | .error e => .error e
  | .ok (snapshot, existingCalls) =>
    if snapshot.updateMode then
      match env.listen with
      | .error e =>
        .error (.fatal ("Failed to start prompt server for snapshot '" ++ snapshot.file ++ "': " ++ e))
      | .ok addr =>
        let existingCall := if existingCalls.length > 0 then existingCalls[0]? else none
        .ok { world := ⟨snapshot, []⟩
              existingCalls := existingCalls
              existingCall := existingCall
              mocks := gockPending.map Mock.Disable ++ [.record (newRecordMock existingCall)]
              intercepting := true
              observing := true
              serverAddr := some ("http://" ++ addr)
              browser := some ("http://" ++ addr) }
    else
      .ok { world := ⟨snapshot, []⟩
            existingCalls := existingCalls
            existingCall := none
            mocks := gockPending ++ snapshot.Calls.map fun call => .static (staticMock env call)
            intercepting := true
            observing := false
            serverAddr := none
            browser := none }

/-- The callback given to `gock.Observe` in update mode, called with the mock
that served a request: the call of the adapter is appended, the next stored call
becomes the reuse candidate and a new adapter is registered. The type assertion
on a mock that is no adapter, and `*call` on an adapter without call, panic. -/
def observe (s : Session) (mock : Option Mock) : Except Fault Session :=
  match mock with
  | some (.record r) =>
    match r.call with
    | none => .error (.panic nilDereference)
    | some c =>
      let calls := s.world.snap.Calls ++ [c]
      let existingCall :=
        if calls.length < s.existingCalls.length then s.existingCalls[calls.length]? else none
      .ok { s with
            world := { s.world with snap := { s.world.snap with Calls := calls } }
            existingCall := existingCall
            mocks := s.mocks ++ [.record (newRecordMock existingCall)] }
  | _ => .error (.panic "interface conversion: gock.Mock is not *gocksnap.recordMocker")

/-- The observer called once for each adapter of `served`, in order. -/
def observeAll (s : Session) : List recordMocker → Except Fault Session
  | [] => .ok s
  | r :: rest =>
    match observe s (some (.record r)) with
    | .error e => .error e
    | .ok s2 => observeAll s2 rest

/-- The adapter registered last, the one the next intercepted call reaches. -/
def Session.adapter (s : Session) : Option recordMocker :=
  match s.mocks.getLast? with
  | some (.record r) => some r
  | _ => none

/-- What `Finish` does to the machine. -/
inductive Effect where
  | serialise (calls : List Call)
  | mkdirAll (dir : String) (perm : Nat)
  | writeFile (path data : String) (perm : Nat)
deriving DecidableEq, Repr

/-- How `Finish` ends: the message of `t.Fatalf` if it fails the test, and what
it did before. -/
structure Finished where
  fatal : Option String
  effects : List Effect
deriving DecidableEq, Repr

/-- Go `func (g *Snapshot) Finish(t *testing.T)`; `gockIsDone` is the value
`gock.IsDone()` would return. -/
def Snapshot.Finish (env : Env) (g : Snapshot) (gockIsDone : Bool) : Finished :=
  if !g.updateMode then
    if !gockIsDone then
      { fatal := some ("Snapshot '" ++ g.name ++ "' is not complete. Some requests were not mocked.")
        effects := [] }
    else { fatal := none, effects := [] }
  else
    match env.marshalIndent g.Calls with
    | .error e =>
      { fatal := some ("Failed to marshal snapshot '" ++ g.name ++ "': " ++ e)
        effects := [.serialise g.Calls] }
    | .ok data =>
      let done := [Effect.serialise g.Calls, .mkdirAll defaultSnapshotDirectory 0o750,
        .writeFile g.file data 0o600]
      match env.writeFile g.file data with
      | some e => { fatal := some ("Failed to save snapshot '" ++ g.name ++ "': " ++ e), effects := done }
      | none => { fatal := none, effects := done }

/-! ## Interleavings -/

/-- One atomic step of some goroutine on the shared state: the locked part of a
`promptCall`, the receive that ends a `promptCall`, a handler of the server, or
the observer appending a call to `snapshot.Calls`. -/
inductive Step (env : Env) : World → World → Prop where
  | appended (w : World) (c : Call) :
      Step env w { w with snap := { w.snap with Calls := w.snap.Calls ++ [c] } }
  | prompt (w w2 : World) (req : HTTPRequest) (existingCall : Option Call) (ch : Chan) :
      promptCallBegin w req existingCall = .ok (w2, ch) → Step env w w2
  | receive (w w2 : World) (ch : Chan) (c : Call) :
      recv w ch = some (w2, c) → Step env w w2
  | serve (w w2 : World) (a : Action) (r : HTTPResponse) :
      serve env w a = .ok (w2, r) → Step env w w2

/-- The states a snapshot in update mode can be in: it starts without prompt and
without channels, as `MatchSnapshot` returns it. -/
inductive Reachable (env : Env) : World → Prop where
  | start (g : Snapshot) : g.pending = none → Reachable env ⟨g, []⟩
  | step (w w2 : World) : Reachable env w → Step env w w2 → Reachable env w2

/-! ## Definitions used to state the properties -/

/-- A snapshot as `MatchSnapshot` returns it: no prompt, no subscriber. -/
def openedSnapshot (testName name : String) (updateMode : Bool) (calls : List Call) : Snapshot :=
  { Calls := calls, testName := testName, name := name, updateMode := updateMode, pending := none,
    sseConns := [] }

/-- The session `MatchSnapshot` sets up in update mode for the stored calls `L`,
with the prompt server listening at `addr`. -/
def recordSession (gockPending : List Mock) (testName name : String) (L : List Call)
    (addr : String) : Session :=
  { world := ⟨openedSnapshot testName name true [], []⟩
    existingCalls := L
    existingCall := L[0]?
    mocks := gockPending.map Mock.Disable ++ [.record (newRecordMock L[0]?)]
    intercepting := true
    observing := true
    serverAddr := some ("http://" ++ addr)
    browser := some ("http://" ++ addr) }

/-- The session `MatchSnapshot` sets up in replay mode for the stored calls `L`. -/
def replaySession (env : Env) (gockPending : List Mock) (testName name : String)
    (L : List Call) : Session :=
  { world := ⟨openedSnapshot testName name false L, []⟩
    existingCalls := []
    existingCall := none
    mocks := gockPending ++ L.map fun call => .static (staticMock env call)
    intercepting := true
    observing := false
    serverAddr := none
    browser := none }

/-- The path `file` computes for a snapshot of this test and name. -/
def snapshotFile (testName name : String) : String :=
  Snapshot.file (openedSnapshot testName name false [])

/-- The stem of the file name in the words of the specification: the test
identifier, a dash and the snapshot name, with every space and every slash
replaced by an underscore. -/
def specStem (testID name : String) : String :=
  String.mk ((testID ++ "-" ++ name).data.map fun c => if c = ' ' ∨ c = '/' then '_' else c)

/-- An environment in which every library call succeeds: the snapshot file
exists exactly when `stored` holds its calls, and a request body decodes to a
response with status 200 and that body unless it is `"bad"`. -/
def exampleEnv (toggle : String) (stored : Option (List Call)) : Env :=
  { UPDATE_GOCKSNAP := toggle
    statNotExist := fun _ => stored.isNone
    readFile := fun _ => .ok "stored"
    unmarshalCalls := fun _ => .ok (stored.getD [])
    marshalIndent := fun _ => .ok "document"
    marshalRaw := fun raw => .ok raw
    encodePrompt := fun p => .ok p.Name
    decodeMockedCall := fun body =>
      if body = "bad" then .error "invalid character"
      else .ok { Status := 200, Body := body, MatchingHeaders := [], MatchingQueryParams := [] }
    listen := .ok "127.0.0.1:4000"
    writeFile := fun _ _ => none
    indexHTML := "<html></html>"
    toUpper := String.toUpper }

/-- A request of the test. -/
def exampleRequest (url : String) : HTTPRequest :=
  { Method := "POST", URL := url, Body := some "[]", Header := [], Query := [] }

/-- A stored call. -/
def exampleCall (url body : String) : Call :=
  { Request := { Method := "POST", URL := url, Body := "[]", Headers := [], QueryParams := [] }
    MockedCall := { Status := 200, Body := body, MatchingHeaders := [], MatchingQueryParams := [] } }

/-- A snapshot in update mode without prompt. -/
def exampleSnapshot : Snapshot :=
  { Calls := [], testName := "TestSnapshot", name := "works", updateMode := true, pending := none,
    sseConns := [] }

/-- The state after the test issued its first request, offered `existing` for
reuse, and waits for the operator. -/
def examplePending (existing : Call) : World :=
  { snap := { exampleSnapshot with
      pending := some
        { Name := "works"
          Request :=
            { Method := "POST", URL := "https://test.com", Body := "[]", Headers := [],
              QueryParams := [] }
          ExistingResponse := some existing.MockedCall
          finalCall := 0 } }
    conduits := [none] }

/-- The observer keeps the reuse candidate at the position of the next call: the
captured `existingCall` is the stored call at index `len(snapshot.Calls)`, and
the adapter registered last carries it. -/
def Paired (s : Session) : Prop :=
  s.existingCall = s.existingCalls[s.world.snap.Calls.length]?
  ∧ s.adapter = some (newRecordMock s.existingCall)

/-- An adapter that offered `existing`, has served a request and holds the call
`c`. -/
def servedAdapter (existing : Option Call) (c : Call) : recordMocker :=
  { disabled := false, existingCall := existing, call := some c }

/-- The result channel of the pending prompt exists and is empty. -/
def ConduitFree (w : World) : Prop :=
  ∀ p, w.snap.pending = some p → w.conduits[p.finalCall]? = some none

/-! ## Theorems -/

/-! ### The snapshot file -/

theorem replaceFrom_single (o n : Char) (s : List Char) :
    replaceFrom [o] [n] 0 s = s.map (fun c => if c = o then n else c) := by
  induction s with
  | nil => simp [replaceFrom]
  | cons c cs ih =>
    by_cases h : c = o
    · subst h; simp [replaceFrom, ih, List.isPrefixOf]
    · have h2 : ¬ o = c := fun e => h e.symm
      simp [replaceFrom, ih, List.isPrefixOf, h, h2]

theorem ReplaceAll_single (o n : Char) (s : List Char) :
    ReplaceAll s [o] [n] = s.map (fun c => if c = o then n else c) := by
  simp [ReplaceAll, replaceFrom_single]

theorem splitSep_of_not_mem (t : List Char) (h : Separator ∉ t) : splitSep t = [t] := by
  induction t with
  | nil => rfl
  | cons c cs ih =>
    simp only [List.mem_cons, not_or] at h
    have hc : ¬ c = Separator := fun e => h.1 e.symm
    simp [splitSep, hc, ih h.2]

theorem splitSep_append (a b : List Char) (h : Separator ∉ a) :
    splitSep (a ++ Separator :: b) = a :: splitSep b := by
  induction a with
  | nil => simp [splitSep]
  | cons c cs ih =>
    simp only [List.mem_cons, not_or] at h
    have hc : ¬ c = Separator := fun e => h.1 e.symm
    simp [splitSep, hc, ih h.2]

/-- A directory followed by one element that is a plain file name is already
clean. -/
theorem Clean_child (d t : List Char) (hd : Separator ∉ d) (hd0 : d ≠ []) (hd1 : d ≠ ['.'])
    (hd2 : d ≠ ['.', '.']) (ht : Separator ∉ t) (ht0 : t ≠ []) (ht1 : t ≠ ['.'])
    (ht2 : t ≠ ['.', '.']) :
    Clean (d ++ Separator :: t) = d ++ Separator :: t := by
  have hroot : ¬ d.head? = some Separator := by
    cases d with
    | nil => exact absurd rfl hd0
    | cons c cs =>
      simp only [List.mem_cons, not_or] at hd
      simpa using fun e => hd.1 e.symm
  simp [Clean, splitSep_append _ _ hd, splitSep_of_not_mem _ ht, cleanStep, hroot, hd0, hd1, hd2,
    ht0, ht1, ht2, List.intercalate]

/-- The stem computed by the code is the stem the specification describes. -/
theorem fileStem_eq (testName name : String) :
    fileStem testName name = (specStem testName name).data := by
  have hfun : (fun x : Char =>
      if (if x = ' ' then '_' else x) = '/' then '_' else if x = ' ' then '_' else x)
      = fun c => if c = ' ' ∨ c = '/' then '_' else c := by
    funext x
    by_cases h1 : x = ' '
    · simp [h1]
    · by_cases h2 : x = '/'
      · simp [h2]
      · simp [h1, h2]
  simp [fileStem, specStem, ReplaceAll_single, List.map_map, Function.comp_def, hfun]

theorem specStem_clean (testID name : String) (c : Char) (hc : c = ' ' ∨ c = '/') :
    c ∉ (specStem testID name).data := by
  intro hmem
  simp only [specStem, List.mem_map] at hmem
  obtain ⟨x, -, hx⟩ := hmem
  by_cases h : x = ' ' ∨ x = '/'
  · rw [if_pos h] at hx
    rcases hc with hc | hc <;> rw [hc] at hx <;> exact absurd hx (by decide)
  · rw [if_neg h] at hx
    exact h (hx ▸ hc)

/-- C8: for every test identifier and snapshot name, `file` depends on that pair
only and is `"__snapshots__/" + s + ".json"`, where `s` is the identifier, a dash
and the name with every space and every slash replaced by an underscore; the file
name holds no slash and no space, so that the path is a direct child of the
snapshots directory. -/
theorem file_is_direct_child (g : Snapshot) :
    g.file = "__snapshots__/" ++ specStem g.testName g.name ++ ".json"
    ∧ '/' ∉ (specStem g.testName g.name ++ ".json").data
    ∧ ' ' ∉ (specStem g.testName g.name ++ ".json").data
    ∧ g.file = defaultSnapshotDirectory ++ "/" ++ (specStem g.testName g.name ++ ".json")
    ∧ specStem g.testName g.name ++ ".json" ≠ ".."
    ∧ specStem g.testName g.name ++ ".json" ≠ "." := by
  have hslash : '/' ∉ (specStem g.testName g.name).data ++ ".json".data := by
    intro h
    rcases List.mem_append.1 h with h | h
    · exact specStem_clean _ _ _ (Or.inr rfl) h
    · exact absurd h (by decide)
  have hspace : ' ' ∉ (specStem g.testName g.name).data ++ ".json".data := by
    intro h
    rcases List.mem_append.1 h with h | h
    · exact specStem_clean _ _ _ (Or.inl rfl) h
    · exact absurd h (by decide)
  have hlen : 5 ≤ ((specStem g.testName g.name).data ++ ".json".data).length := by
    simp [List.length_append]
  have hpath : g.file
      = String.mk ("__snapshots__".data ++ '/' :: ((specStem g.testName g.name).data ++ ".json".data)) := by
    have hclean := Clean_child "__snapshots__".data
      ((specStem g.testName g.name).data ++ ".json".data) (by decide) (by decide) (by decide)
      (by decide) hslash
      (fun e => by rw [e] at hlen; simp at hlen)
      (fun e => by rw [e] at hlen; simp at hlen)
      (fun e => by rw [e] at hlen; simp at hlen)
    simp only [Snapshot.file, filepathJoin, defaultSnapshotDirectory, fileStem_eq]
    rw [if_neg (by decide)]
    simp only [List.intercalate, List.intersperse, List.flatten, List.append_nil]
    exact congrArg String.mk hclean
  refine ⟨?_, ?_, ?_, ?_, ?_, ?_⟩
  · rw [hpath]; apply String.ext; simp [String.data_append]
  · simpa [String.data_append] using hslash
  · simpa [String.data_append] using hspace
  · rw [hpath]; apply String.ext; simp [String.data_append, defaultSnapshotDirectory]
  · intro e
    have := congrArg String.data e
    simp only [String.data_append] at this
    rw [this] at hlen; simp at hlen
  · intro e
    have := congrArg String.data e
    simp only [String.data_append] at this
    rw [this] at hlen; simp at hlen

/-! ### The pending prompt and its result channel -/

theorem promptCallBegin_some (w : World) (req : HTTPRequest) (c : Call) :
    promptCallBegin w req (some c)
      = .ok ({ snap := { w.snap with
                pending := some
                  { Name := w.snap.name
                    Request :=
                      { Method := req.Method, URL := req.URL, Body := req.Body.getD "",
                        Headers := req.Header, QueryParams := req.Query }
                    ExistingResponse := some c.MockedCall
                    finalCall := w.conduits.length }
                sseConns := notifyAll w.snap.sseConns }
               conduits := w.conduits ++ [none] }, w.conduits.length) := by
  cases hb : req.Body <;> simp [promptCallBegin, hb]

theorem promptCallBegin_none (w : World) (req : HTTPRequest) :
    promptCallBegin w req none = .error (.panic nilDereference) := by
  simp [promptCallBegin]

theorem ConduitFree_step (env : Env) (w w2 : World) (hw : ConduitFree w) (hs : Step env w w2) :
    ConduitFree w2 := by
  cases hs with
  | appended c => exact hw
  | prompt _ req existingCall ch h =>
    cases existingCall with
    | none => simp [promptCallBegin_none] at h
    | some c =>
      rw [promptCallBegin_some] at h
      injection h with h
      injection h with h1 h2
      subst h1
      intro p hp
      simp only [Option.some.injEq] at hp
      subst hp
      simp
  | receive _ ch c h =>
    unfold recv at h
    split at h
    · injection h with h
      injection h with h1 h2
      subst h1
      intro p hp
      have := hw p hp
      rw [List.getElem?_set]
      split
      · split
        · rfl
        · rename_i hlt
          rw [List.getElem?_eq_none (by omega)] at this
          simp at this
      · exact this
    · simp at h
  | serve _ a r h =>
    cases a with
    | getIndex =>
      simp only [serve, handleIndex] at h
      injection h with h; injection h with h1 h2; subst h1; exact hw
    | getCurrent =>
      simp only [serve, handleCurrent] at h
      split at h
      · injection h with h; injection h with h1 h2; subst h1; exact hw
      · split at h <;> (injection h with h; injection h with h1 h2; subst h1; exact hw)
    | postNew body =>
      simp only [serve, handleNew] at h
      split at h
      · injection h with h; injection h with h1 h2; subst h1; exact hw
      · split at h
        · split at h
          · simp at h
          · injection h with h; injection h with h1 h2; subst h1
            intro p hp; simp at hp
        · injection h with h; injection h with h1 h2; subst h1; exact hw
    | postExisting body =>
      simp only [serve, handleExisting] at h
      split at h
      · injection h with h; injection h with h1 h2; subst h1; exact hw
      · split at h
        · injection h with h; injection h with h1 h2; subst h1; exact hw
        · split at h
          · injection h with h; injection h with h1 h2; subst h1; exact hw
          · split at h
            · simp at h
            · injection h with h; injection h with h1 h2; subst h1
              intro p hp; simp at hp
    | eventsOpen =>
      simp only [serve] at h
      injection h with h; injection h with h1 h2; subst h1; exact hw
    | eventsRecv id =>
      simp only [serve] at h
      split at h
      · rename_i w3 chunk he
        injection h with h; injection h with h1 h2; subst h1
        unfold eventsRecv at he
        split at he
        · injection he with he; injection he with h3 h4; subst h3; exact hw
        · simp at he
      · injection h with h; injection h with h1 h2; subst h1; exact hw
    | eventsClose id =>
      simp only [serve] at h
      injection h with h; injection h with h1 h2; subst h1; exact hw

/-- In every reachable state the result channel of the pending prompt is empty. -/
theorem Reachable.conduitFree (env : Env) (w : World) (hw : Reachable env w) : ConduitFree w := by
  induction hw with
  | start g hg => intro p hp; simp [hg] at hp
  | step w w2 _ hs ih => exact ConduitFree_step env w w2 ih hs

theorem examplePending_reachable (env : Env) (existing : Call) :
    Reachable env (examplePending existing) :=
  Reachable.step ⟨exampleSnapshot, []⟩ _ (Reachable.start exampleSnapshot rfl)
    (Step.prompt _ _ (exampleRequest "https://test.com") (some existing) 0 rfl)

/-- C1: in every reachable state with a pending prompt, `POST /new` with a body
that decodes to the response `payload` answers 200 "ok", clears the pending slot
and leaves the rest of the snapshot as it was, and the result channel of that
prompt, empty before, now holds the one call made of the request of the prompt
and of `payload` unchanged; no other channel is written. -/
theorem new_resolves_pending (env : Env) (w : World) (hw : Reachable env w) (p : CallPrompt)
    (hp : w.snap.pending = some p) (body : String) (payload : MockedCall)
    (hbody : env.decodeMockedCall body = .ok payload) :
    w.conduits[p.finalCall]? = some none
    ∧ handleNew env w body
        = .ok ({ snap := { w.snap with pending := none }
                 conduits := w.conduits.set p.finalCall
                   (some { Request := p.Request, MockedCall := payload }) },
               { status := 200, body := "ok" }) := by
  have hfree := Reachable.conduitFree env w hw p hp
  refine ⟨hfree, ?_⟩
  simp [handleNew, hbody, hp, send, hfree]

theorem new_resolves_pending_witness :
    (examplePending (exampleCall "https://test.com" "[0]")).conduits[0]? = some none
    ∧ handleNew (exampleEnv "true" none)
        (examplePending (exampleCall "https://test.com" "[0]")) "[1]"
      = .ok ({ snap := exampleSnapshot
               conduits := [some
                 { Request :=
                     { Method := "POST", URL := "https://test.com", Body := "[]", Headers := [],
                       QueryParams := [] }
                   MockedCall :=
                     { Status := 200, Body := "[1]", MatchingHeaders := [],
                       MatchingQueryParams := [] } }] },
             { status := 200, body := "ok" }) :=
  new_resolves_pending (exampleEnv "true" none)
    (examplePending (exampleCall "https://test.com" "[0]"))
    (examplePending_reachable _ _) _ rfl "[1]" _ rfl

/-- C2, what the code does: with no prompt pending, before the first prompt as
well as after the prompt was resolved, `POST /new` with a well-formed body
answers 200 "ok", not 404; it writes to no channel and leaves the state as it
was. The handlers of `/existing` and `/current` answer 404 in the same state. -/
theorem new_without_pending_answers_ok :
    handleNew (exampleEnv "true" none) ⟨exampleSnapshot, []⟩ "[1]"
      = .ok (⟨exampleSnapshot, []⟩, { status := 200, body := "ok" })
    ∧ (∃ w r, handleNew (exampleEnv "true" none)
          (examplePending (exampleCall "https://test.com" "[]")) "[1]" = .ok (w, r)
        ∧ w.snap.pending = none
        ∧ handleNew (exampleEnv "true" none) w "[2]"
            = .ok (w, { status := 200, body := "ok" }))
    ∧ handleExisting (exampleEnv "true" none) ⟨exampleSnapshot, []⟩ "[1]"
      = .ok (⟨exampleSnapshot, []⟩, { status := 404, body := "no snapshot pending\n" })
    ∧ handleCurrent (exampleEnv "true" none) ⟨exampleSnapshot, []⟩
      = .ok (⟨exampleSnapshot, []⟩, { status := 404, body := "no snapshot pending\n" }) := by
  refine ⟨by rfl, ⟨_, _, rfl, by rfl, by rfl⟩, by rfl, by rfl⟩

/-- With no prompt pending, `POST /new` with a body that decodes answers 200 "ok"
and changes nothing, in every state. -/
theorem handleNew_no_pending (env : Env) (w : World) (hp : w.snap.pending = none) (body : String)
    (payload : MockedCall) (hbody : env.decodeMockedCall body = .ok payload) :
    handleNew env w body = .ok (w, { status := 200, body := "ok" }) := by
  simp [handleNew, hbody, hp]

/-- C5 as stated fails: while the prompt of the first request is pending, a
`promptCall` for a second request puts its own prompt, with a new channel, into
the pending slot; the first prompt and its channel are no longer there although
no resolution endpoint has run. -/
theorem second_prompt_replaces_first :
    Reachable (exampleEnv "true" none) (examplePending (exampleCall "https://test.com" "[]"))
    ∧ ∃ p w2, (examplePending (exampleCall "https://test.com" "[]")).snap.pending = some p
      ∧ p.finalCall = 0
      ∧ promptCallBegin (examplePending (exampleCall "https://test.com" "[]"))
          (exampleRequest "https://example.com") (some (exampleCall "https://example.com" "[]"))
        = .ok (w2, 1)
      ∧ w2.snap.pending ≠ some p
      ∧ w2.snap.pending.map (·.Request.URL) = some "https://example.com"
      ∧ w2.snap.pending.map (·.finalCall) = some 1 := by
  refine ⟨examplePending_reachable _ _, _, _, rfl, rfl, rfl, by decide, by rfl, by rfl⟩

/-- C5 amended: the snapshot has one pending slot; `promptCall` neither waits for
nor checks an outstanding prompt. In a reachable state with a prompt pending, a
further `promptCall` that carries a reuse candidate installs the prompt of the
new request with a newly made channel in the slot; the channel of the earlier
prompt is a different one and nothing is written to it. -/
theorem further_prompt_takes_slot (env : Env) (w : World) (hw : Reachable env w) (p : CallPrompt)
    (hp : w.snap.pending = some p) (req : HTTPRequest) (c : Call) :
    ∃ w2, promptCallBegin w req (some c) = .ok (w2, w.conduits.length)
      ∧ w2.snap.pending = some
          { Name := w.snap.name
            Request :=
              { Method := req.Method, URL := req.URL, Body := req.Body.getD "",
                Headers := req.Header, QueryParams := req.Query }
            ExistingResponse := some c.MockedCall
            finalCall := w.conduits.length }
      ∧ p.finalCall < w.conduits.length
      ∧ w2.conduits[p.finalCall]? = some none
      ∧ w2.conduits[w.conduits.length]? = some none := by
  have hfree := Reachable.conduitFree env w hw p hp
  have hlt : p.finalCall < w.conduits.length := by
    by_contra hge
    have hle : w.conduits.length ≤ p.finalCall := Nat.le_of_not_lt hge
    rw [List.getElem?_eq_none hle] at hfree
    simp at hfree
  refine ⟨_, promptCallBegin_some w req c, rfl, hlt, ?_, ?_⟩
  · simp only [List.getElem?_append_left hlt]
    exact hfree
  · simp

theorem further_prompt_takes_slot_witness :
    ∃ w2, promptCallBegin (examplePending (exampleCall "https://test.com" "[]"))
        (exampleRequest "https://example.com") (some (exampleCall "https://example.com" "[]"))
        = .ok (w2, 1)
      ∧ w2.snap.pending = some
          { Name := "works"
            Request :=
              { Method := "POST", URL := "https://example.com", Body := "[]", Headers := [],
                QueryParams := [] }
            ExistingResponse := some (exampleCall "https://example.com" "[]").MockedCall
            finalCall := 1 }
      ∧ 0 < 1
      ∧ w2.conduits[0]? = some none
      ∧ w2.conduits[1]? = some none :=
  further_prompt_takes_slot (exampleEnv "true" none)
    (examplePending (exampleCall "https://test.com" "[]")) (examplePending_reachable _ _) _ rfl
    (exampleRequest "https://example.com") (exampleCall "https://example.com" "[]")

/-! ### Reuse candidates -/

theorem observe_record (s : Session) (r : recordMocker) (c : Call) (hc : r.call = some c) :
    observe s (some (.record r))
      = .ok { s with
              world := { s.world with snap := { s.world.snap with Calls := s.world.snap.Calls ++ [c] } }
              existingCall := s.existingCalls[(s.world.snap.Calls ++ [c]).length]?
              mocks := s.mocks ++ [.record (newRecordMock
                (s.existingCalls[(s.world.snap.Calls ++ [c]).length]?))] } := by
  have hif : (if (s.world.snap.Calls ++ [c]).length < s.existingCalls.length
      then s.existingCalls[(s.world.snap.Calls ++ [c]).length]? else none)
      = s.existingCalls[(s.world.snap.Calls ++ [c]).length]? := by
    split
    · rfl
    · rename_i h
      exact (List.getElem?_eq_none (Nat.le_of_not_lt h)).symm
  simp only [observe, hc, hif]

theorem observeAll_paired (served : List recordMocker) :
    ∀ (s : Session) (calls : List Call), served.map (·.call) = calls.map some → Paired s →
      ∃ s2, observeAll s served = .ok s2 ∧ Paired s2
        ∧ s2.world.snap.Calls = s.world.snap.Calls ++ calls
        ∧ s2.existingCalls = s.existingCalls := by
  induction served with
  | nil =>
    intro s calls h hs
    cases calls with
    | nil => exact ⟨s, rfl, hs, by simp, rfl⟩
    | cons c cs => simp at h
  | cons r rest ih =>
    intro s calls h hs
    cases calls with
    | nil => simp at h
    | cons c cs =>
      simp only [List.map_cons, List.cons.injEq] at h
      obtain ⟨s2, h2, hp2, hc2, he2⟩ := ih
        { s with
          world := { s.world with snap := { s.world.snap with Calls := s.world.snap.Calls ++ [c] } }
          existingCall := s.existingCalls[(s.world.snap.Calls ++ [c]).length]?
          mocks := s.mocks ++ [.record (newRecordMock
            (s.existingCalls[(s.world.snap.Calls ++ [c]).length]?))] }
        cs h.2 ⟨rfl, by simp [Session.adapter]⟩
      refine ⟨s2, ?_, hp2, ?_, he2⟩
      · simp only [observeAll, observe_record s r c h.1]
        exact h2
      · rw [hc2]; simp

theorem MatchSnapshot_update (env : Env) (gockPending : List Mock) (testName name data : String)
    (L : List Call) (addr : String)
    (hstat : env.statNotExist (snapshotFile testName name) = false)
    (hread : env.readFile (snapshotFile testName name) = .ok data)
    (hdata : env.unmarshalCalls data = .ok L)
    (htoggle : env.UPDATE_GOCKSNAP = "true")
    (hlisten : env.listen = .ok addr) :
    MatchSnapshot env gockPending testName name
      = .ok (recordSession gockPending testName name L addr) := by
  have hfile : ∀ (b : Bool), Snapshot.file (openedSnapshot testName name b [])
      = snapshotFile testName name := fun _ => rfl
  have hif : (if L.length > 0 then L[0]? else none) = L[0]? := by
    cases L <;> simp
  simp only [openedSnapshot] at hfile
  simp [MatchSnapshot, hfile, hstat, hread, hdata, htoggle, hlisten, hif, openedSnapshot,
    recordSession]

theorem awaitFinal_ready (env : Env) (ch : Chan) (w : World) (ui : List Action) (r : World × Call)
    (h : recv w ch = some r) : awaitFinal env ch w ui = .ok r := by
  cases ui <;> simp [awaitFinal, h]

/-- An enabled adapter with the reuse candidate `c`, before the operator acts,
waits in the state in which its prompt is pending: the prompt holds the request
and offers the response of `c`. -/
theorem Match_waits (env : Env) (r : recordMocker) (hr : r.disabled = false) (c : Call)
    (hc : r.existingCall = some c) (w : World) (req : HTTPRequest) :
    r.Match env w req []
      = .error (.waiting
          { snap := { w.snap with
              pending := some
                { Name := w.snap.name
                  Request :=
                    { Method := req.Method, URL := req.URL, Body := req.Body.getD "",
                      Headers := req.Header, QueryParams := req.Query }
                  ExistingResponse := some c.MockedCall
                  finalCall := w.conduits.length }
              sseConns := notifyAll w.snap.sseConns }
            conduits := w.conduits ++ [none] }) := by
  simp [recordMocker.Match, hr, hc, promptCall, promptCallBegin_some, awaitFinal, recv]

/-- An enabled adapter with a reuse candidate returns true once the operator
posts a response to `/existing`, and holds the call made of the request and
that response. -/
theorem Match_reused (env : Env) (r : recordMocker) (hr : r.disabled = false) (c : Call)
    (hc : r.existingCall = some c) (w : World) (req : HTTPRequest) (body : String)
    (payload : MockedCall) (hbody : env.decodeMockedCall body = .ok payload)
    (ui : List Action) :
    ∃ r2 w2, r.Match env w req (.postExisting body :: ui) = .ok (r2, w2, true)
      ∧ r2.call = some
          { Request :=
              { Method := req.Method, URL := req.URL, Body := req.Body.getD "",
                Headers := req.Header, QueryParams := req.Query }
            MockedCall := payload }
      ∧ r2.existingCall = some c
      ∧ r2.Done = true
      ∧ w2.snap.pending = none := by
  have hready := awaitFinal_ready env w.conduits.length
    { snap := { w.snap with pending := none, sseConns := notifyAll w.snap.sseConns }
      conduits := w.conduits ++
        [some { Request :=
                  { Method := req.Method, URL := req.URL, Body := req.Body.getD "",
                    Headers := req.Header, QueryParams := req.Query }
                MockedCall := payload }] } ui _ (by simp [recv]; rfl)
  simp [recordMocker.Match, hr, hc, promptCall, promptCallBegin_some, awaitFinal, recv, serve,
    handleExisting, hbody, send, recordMocker.Done, hready]
  exact ⟨_, _, ⟨rfl, rfl⟩, rfl, rfl, Or.inr rfl, rfl⟩

/-- C3: when `MatchSnapshot` opens an existing snapshot with the stored calls `L`
in update mode, then after any `i - 1` calls were served and observed, with
`i - 1 < len(L)`, the calls of the snapshot are those calls and the adapter
registered last, the one that serves call `i`, carries stored call `i` as its
reuse candidate. Its `Match`, for any request and in any state, creates the
prompt of that request with the response of stored call `i` as
`ExistingResponse` and waits for the operator in that state; once the operator
accepts through `/existing`, `Match` returns true and the adapter holds the call
made of the request and the posted response. For `i = 1` this is the initial
adapter. -/
theorem reuse_candidate_by_position (env : Env) (gockPending : List Mock)
    (testName name data : String) (L : List Call) (addr : String)
    (hstat : env.statNotExist (snapshotFile testName name) = false)
    (hread : env.readFile (snapshotFile testName name) = .ok data)
    (hdata : env.unmarshalCalls data = .ok L)
    (htoggle : env.UPDATE_GOCKSNAP = "true")
    (hlisten : env.listen = .ok addr)
    (served : List recordMocker) (calls : List Call)
    (hserved : served.map (·.call) = calls.map some)
    (hi : served.length < L.length) :
    ∃ s0 s r, MatchSnapshot env gockPending testName name = .ok s0
      ∧ observeAll s0 served = .ok s
      ∧ s.world.snap.Calls = calls
      ∧ s.adapter = some r
      ∧ r = newRecordMock (some L[served.length])
      ∧ (∀ (w : World) (req : HTTPRequest),
          ∃ w1 p, r.Match env w req [] = .error (.waiting w1)
            ∧ w1.snap.pending = some p
            ∧ p.Request =
                { Method := req.Method, URL := req.URL, Body := req.Body.getD "",
                  Headers := req.Header, QueryParams := req.Query }
            ∧ p.ExistingResponse = some L[served.length].MockedCall
            ∧ w1.conduits[p.finalCall]? = some none)
      ∧ (∀ (w : World) (req : HTTPRequest) (body : String) (payload : MockedCall),
          env.decodeMockedCall body = .ok payload →
          ∃ r2 w2, r.Match env w req [.postExisting body] = .ok (r2, w2, true)
            ∧ r2.call = some
                { Request :=
                    { Method := req.Method, URL := req.URL, Body := req.Body.getD "",
                      Headers := req.Header, QueryParams := req.Query }
                  MockedCall := payload }
            ∧ r2.existingCall = some L[served.length]
            ∧ w2.snap.pending = none) := by
  have h0 := MatchSnapshot_update env gockPending testName name data L addr hstat hread hdata
    htoggle hlisten
  obtain ⟨s, hs, hp, hc, he⟩ := observeAll_paired served
    (recordSession gockPending testName name L addr) calls hserved
    ⟨rfl, by simp [Session.adapter, recordSession]⟩
  have hlen : calls.length = served.length := by
    have := congrArg List.length hserved
    simpa using this.symm
  have hcand : s.existingCall = some L[served.length] := by
    rw [hp.1, he, hc]
    simp only [recordSession, openedSnapshot, List.nil_append, hlen]
    exact List.getElem?_eq_getElem hi
  refine ⟨_, s, newRecordMock (some L[served.length]), h0, hs,
    by simpa [recordSession, openedSnapshot] using hc, ?_, rfl, ?_, ?_⟩
  · rw [hp.2, hcand]
  · intro w req
    refine ⟨_, _, Match_waits env _ rfl L[served.length] rfl w req, rfl, rfl, rfl, ?_⟩
    simp
  · intro w req body payload hbody
    obtain ⟨r2, w2, hm, hcall, hex, -, hpend⟩ := Match_reused env
      (newRecordMock (some L[served.length])) rfl L[served.length] rfl w req body payload hbody []
    exact ⟨r2, w2, hm, hcall, hex, hpend⟩

theorem reuse_candidate_by_position_witness :
    ∃ s0 s r, MatchSnapshot
          (exampleEnv "true" (some [exampleCall "https://test.com" "[1]",
            exampleCall "https://example.com" "[2]"])) [] "TestSnapshot" "works" = .ok s0
      ∧ observeAll s0 [servedAdapter (some (exampleCall "https://test.com" "[1]"))
          (exampleCall "https://test.com" "[3]")] = .ok s
      ∧ s.world.snap.Calls = [exampleCall "https://test.com" "[3]"]
      ∧ s.adapter = some r
      ∧ r = newRecordMock (some (exampleCall "https://example.com" "[2]"))
      ∧ (∀ (w : World) (req : HTTPRequest),
          ∃ w1 p, r.Match (exampleEnv "true" (some [exampleCall "https://test.com" "[1]",
                exampleCall "https://example.com" "[2]"])) w req [] = .error (.waiting w1)
            ∧ w1.snap.pending = some p
            ∧ p.Request =
                { Method := req.Method, URL := req.URL, Body := req.Body.getD "",
                  Headers := req.Header, QueryParams := req.Query }
            ∧ p.ExistingResponse = some (exampleCall "https://example.com" "[2]").MockedCall
            ∧ w1.conduits[p.finalCall]? = some none)
      ∧ (∀ (w : World) (req : HTTPRequest) (body : String) (payload : MockedCall),
          (exampleEnv "true" (some [exampleCall "https://test.com" "[1]",
              exampleCall "https://example.com" "[2]"])).decodeMockedCall body = .ok payload →
          ∃ r2 w2, r.Match (exampleEnv "true" (some [exampleCall "https://test.com" "[1]",
                exampleCall "https://example.com" "[2]"])) w req [.postExisting body]
              = .ok (r2, w2, true)
            ∧ r2.call = some
                { Request :=
                    { Method := req.Method, URL := req.URL, Body := req.Body.getD "",
                      Headers := req.Header, QueryParams := req.Query }
                  MockedCall := payload }
            ∧ r2.existingCall = some (exampleCall "https://example.com" "[2]")
            ∧ w2.snap.pending = none) :=
  reuse_candidate_by_position
    (exampleEnv "true" (some [exampleCall "https://test.com" "[1]",
      exampleCall "https://example.com" "[2]"])) [] "TestSnapshot" "works" "stored"
    [exampleCall "https://test.com" "[1]", exampleCall "https://example.com" "[2]"]
    "127.0.0.1:4000" rfl rfl rfl rfl rfl
    [servedAdapter (some (exampleCall "https://test.com" "[1]"))
      (exampleCall "https://test.com" "[3]")] [exampleCall "https://test.com" "[3]"]
    rfl (by decide)

/-- C4, what the code does: `promptCall` without reuse candidate panics on
`&existingCall.MockedCall` before any prompt is stored, whatever the state, the
request and the operator do; this is the call made for the first request when no
snapshot file exists, and for the request after the last stored call. -/
theorem promptCall_without_candidate_panics :
    (∀ (env : Env) (w : World) (req : HTTPRequest) (ui : List Action),
      promptCall env w req none ui = .error (.panic nilDereference))
    ∧ (∃ s r, MatchSnapshot (exampleEnv "" none) [] "TestSnapshot" "works" = .ok s
        ∧ s.adapter = some r ∧ r.existingCall = none
        ∧ promptCall (exampleEnv "" none) s.world (exampleRequest "https://test.com")
            r.existingCall [.getCurrent, .postNew "[1]"] = .error (.panic nilDereference))
    ∧ (∃ s0 s r, MatchSnapshot (exampleEnv "true" (some [exampleCall "https://test.com" "[1]"]))
          [] "TestSnapshot" "works" = .ok s0
        ∧ observeAll s0 [servedAdapter (some (exampleCall "https://test.com" "[1]"))
            (exampleCall "https://test.com" "[1]")] = .ok s
        ∧ s.adapter = some r ∧ r.existingCall = none
        ∧ promptCall (exampleEnv "true" (some [exampleCall "https://test.com" "[1]"])) s.world
            (exampleRequest "https://example.com") r.existingCall [.postNew "[2]"]
          = .error (.panic nilDereference)) := by
  refine ⟨fun env w req ui => ?_, ⟨_, _, rfl, rfl, rfl, rfl⟩, ⟨_, _, _, rfl, rfl, rfl, rfl, rfl⟩⟩
  simp [promptCall, promptCallBegin_none]

/-! ### The recording adapter -/

/-- A disabled adapter refuses every request: no prompt, no notification, the
state and the adapter stay as they are, and `Done` reports true. -/
theorem Match_disabled (env : Env) (r : recordMocker) (hr : r.disabled = true) (w : World)
    (req : HTTPRequest) (ui : List Action) :
    r.Match env w req ui = .ok (r, w, false) ∧ r.Done = true := by
  simp [recordMocker.Match, recordMocker.Done, hr]

/-- After `Disable` the adapter is disabled for good: `Match` does not change it. -/
theorem Match_after_Disable (env : Env) (r : recordMocker) (w : World) (req : HTTPRequest)
    (ui : List Action) :
    r.Disable.Match env w req ui = .ok (r.Disable, w, false) ∧ r.Disable.Done = true :=
  Match_disabled env r.Disable rfl w req ui

/-- When `Match` returns, it returns true exactly for an adapter that was not
disabled, and then the adapter holds a call and `Done` reports true. -/
theorem Match_returns (env : Env) (r r2 : recordMocker) (w w2 : World) (req : HTTPRequest)
    (ui : List Action) (b : Bool) (h : r.Match env w req ui = .ok (r2, w2, b)) :
    (b = true ↔ r.disabled = false)
    ∧ (b = true → r2.call.isSome = true ∧ r2.Done = true) := by
  unfold recordMocker.Match at h
  split at h
  · rename_i hd
    injection h with h
    simp only [Prod.mk.injEq] at h
    obtain ⟨-, -, hb⟩ := h
    subst hb
    simp [hd]
  · rename_i hd
    split at h
    · simp at h
    · injection h with h
      simp only [Prod.mk.injEq] at h
      obtain ⟨hr, -, hb⟩ := h
      subst hb; subst hr
      simp [recordMocker.Done, hd]

/-- An enabled adapter with a reuse candidate returns true once the operator
posts a response to `/new`, and holds the call made of the request and that
response. -/
theorem Match_resolved (env : Env) (r : recordMocker) (hr : r.disabled = false) (c : Call)
    (hc : r.existingCall = some c) (w : World) (req : HTTPRequest) (body : String)
    (payload : MockedCall) (hbody : env.decodeMockedCall body = .ok payload)
    (ui : List Action) :
    ∃ r2 w2, r.Match env w req (.postNew body :: ui) = .ok (r2, w2, true)
      ∧ r2.call = some
          { Request :=
              { Method := req.Method, URL := req.URL, Body := req.Body.getD "",
                Headers := req.Header, QueryParams := req.Query }
            MockedCall := payload }
      ∧ r2.Done = true
      ∧ w2.snap.pending = none := by
  have hready := awaitFinal_ready env w.conduits.length
    { snap := { w.snap with pending := none, sseConns := notifyAll w.snap.sseConns }
      conduits := w.conduits ++
        [some { Request :=
                  { Method := req.Method, URL := req.URL, Body := req.Body.getD "",
                    Headers := req.Header, QueryParams := req.Query }
                MockedCall := payload }] } ui _ (by simp [recv]; rfl)
  simp [recordMocker.Match, hr, hc, promptCall, promptCallBegin_some, awaitFinal, recv, serve,
    handleNew, hbody, send, recordMocker.Done, hready]
  exact ⟨_, _, ⟨rfl, rfl⟩, rfl, Or.inr rfl, rfl⟩

/-- C10, what the code does: an adapter that is not disabled and has no reuse
candidate does not return true from `Match`; the call panics inside `promptCall`
on `&existingCall.MockedCall`, whatever the request and the operator do. This is
the adapter `MatchSnapshot` registers when there is no snapshot file. -/
theorem Match_without_candidate_panics :
    (∀ (env : Env) (call : Option Call) (w : World) (req : HTTPRequest) (ui : List Action),
      recordMocker.Match env { disabled := false, existingCall := none, call := call } w req ui
        = .error (.panic nilDereference))
    ∧ (∃ s r, MatchSnapshot (exampleEnv "" none) [] "TestSnapshot" "works" = .ok s
        ∧ s.adapter = some r ∧ r.disabled = false
        ∧ r.Match (exampleEnv "" none) s.world (exampleRequest "https://test.com")
            [.postNew "[1]"] = .error (.panic nilDereference)) := by
  refine ⟨fun env call w req ui => ?_, ⟨_, _, rfl, rfl, rfl, rfl⟩⟩
  simp [recordMocker.Match, promptCall, promptCallBegin_none]

/-! ### Opening and finishing a snapshot -/

theorem MatchSnapshot_absent (env : Env) (gockPending : List Mock) (testName name addr : String)
    (hstat : env.statNotExist (snapshotFile testName name) = true)
    (hlisten : env.listen = .ok addr) :
    MatchSnapshot env gockPending testName name
      = .ok (recordSession gockPending testName name [] addr) := by
  have hfile : ∀ (b : Bool), Snapshot.file (openedSnapshot testName name b [])
      = snapshotFile testName name := fun _ => rfl
  simp only [openedSnapshot] at hfile
  simp [MatchSnapshot, hfile, hstat, hlisten, openedSnapshot, recordSession]

theorem MatchSnapshot_replay (env : Env) (gockPending : List Mock) (testName name data : String)
    (L : List Call)
    (hstat : env.statNotExist (snapshotFile testName name) = false)
    (hread : env.readFile (snapshotFile testName name) = .ok data)
    (hdata : env.unmarshalCalls data = .ok L)
    (htoggle : env.UPDATE_GOCKSNAP ≠ "true") :
    MatchSnapshot env gockPending testName name
      = .ok (replaySession env gockPending testName name L) := by
  have hfile : ∀ (b : Bool), Snapshot.file (openedSnapshot testName name b [])
      = snapshotFile testName name := fun _ => rfl
  simp only [openedSnapshot] at hfile
  simp [MatchSnapshot, hfile, hstat, hread, hdata, htoggle, openedSnapshot, replaySession]

theorem MatchSnapshot_updateMode (env : Env) (gockPending : List Mock) (testName name : String)
    (s : Session) (h : MatchSnapshot env gockPending testName name = .ok s) :
    s.world.snap.updateMode = true
      ↔ (env.statNotExist (snapshotFile testName name) = true ∨ env.UPDATE_GOCKSNAP = "true") := by
  have hfile : ∀ (b : Bool), Snapshot.file (openedSnapshot testName name b [])
      = snapshotFile testName name := fun _ => rfl
  simp only [openedSnapshot] at hfile
  cases hstat : env.statNotExist (snapshotFile testName name) with
  | true =>
    cases hl : env.listen with
    | error e => simp [MatchSnapshot, hfile, hstat, hl] at h
    | ok addr =>
      rw [MatchSnapshot_absent env gockPending testName name addr hstat hl] at h
      injection h with h
      subst h
      simp [recordSession, openedSnapshot]
  | false =>
    cases hr : env.readFile (snapshotFile testName name) with
    | error e => simp [MatchSnapshot, hfile, hstat, hr] at h
    | ok data =>
      cases hd : env.unmarshalCalls data with
      | error e => simp [MatchSnapshot, hfile, hstat, hr, hd] at h
      | ok L =>
        by_cases ht : env.UPDATE_GOCKSNAP = "true"
        · cases hl : env.listen with
          | error e => simp [MatchSnapshot, hfile, hstat, hr, hd, ht, hl] at h
          | ok addr =>
            rw [MatchSnapshot_update env gockPending testName name data L addr hstat hr hd ht hl] at h
            injection h with h
            subst h
            simp [recordSession, openedSnapshot, ht]
        · rw [MatchSnapshot_replay env gockPending testName name data L hstat hr hd ht] at h
          injection h with h
          subst h
          simp [replaySession, openedSnapshot, ht]

/-- C6: whenever `MatchSnapshot` returns, the snapshot is in update (record)
mode exactly when the snapshot file is absent or `UPDATE_GOCKSNAP` is "true".
With the file absent, it returns, once the prompt server listens, a snapshot in
record mode with no calls and an empty reuse pool; with a file that stores the
calls `L` and the toggle "true", one in record mode with no calls and the reuse
pool `L`; with that file and any other toggle, one in replay mode whose calls
are `L`. -/
theorem MatchSnapshot_mode (env : Env) (gockPending : List Mock) (testName name : String) :
    (∀ s, MatchSnapshot env gockPending testName name = .ok s →
      (s.world.snap.updateMode = true
        ↔ (env.statNotExist (snapshotFile testName name) = true ∨ env.UPDATE_GOCKSNAP = "true")))
    ∧ (env.statNotExist (snapshotFile testName name) = true →
        ∀ addr, env.listen = .ok addr →
          ∃ s, MatchSnapshot env gockPending testName name = .ok s
            ∧ s.world.snap.updateMode = true ∧ s.world.snap.Calls = [] ∧ s.existingCalls = [])
    ∧ (∀ data L, env.statNotExist (snapshotFile testName name) = false →
        env.readFile (snapshotFile testName name) = .ok data →
        env.unmarshalCalls data = .ok L →
          (env.UPDATE_GOCKSNAP = "true" → ∀ addr, env.listen = .ok addr →
            ∃ s, MatchSnapshot env gockPending testName name = .ok s
              ∧ s.world.snap.updateMode = true ∧ s.world.snap.Calls = [] ∧ s.existingCalls = L)
          ∧ (env.UPDATE_GOCKSNAP ≠ "true" →
            ∃ s, MatchSnapshot env gockPending testName name = .ok s
              ∧ s.world.snap.updateMode = false ∧ s.world.snap.Calls = L)) := by
  refine ⟨fun s h => MatchSnapshot_updateMode env gockPending testName name s h, ?_, ?_⟩
  · intro hstat addr hl
    exact ⟨_, MatchSnapshot_absent env gockPending testName name addr hstat hl, rfl, rfl, rfl⟩
  · intro data L hstat hr hd
    refine ⟨fun ht addr hl => ?_, fun ht => ?_⟩
    · exact ⟨_, MatchSnapshot_update env gockPending testName name data L addr hstat hr hd ht hl,
        rfl, rfl, rfl⟩
    · exact ⟨_, MatchSnapshot_replay env gockPending testName name data L hstat hr hd ht, rfl, rfl⟩

theorem MatchSnapshot_mode_witness :
    (∃ s, MatchSnapshot (exampleEnv "" none) [] "TestSnapshot" "works" = .ok s
      ∧ s.world.snap.updateMode = true ∧ s.world.snap.Calls = [] ∧ s.existingCalls = [])
    ∧ (∃ s, MatchSnapshot (exampleEnv "true" (some [exampleCall "https://test.com" "[1]"])) []
          "TestSnapshot" "works" = .ok s
      ∧ s.world.snap.updateMode = true ∧ s.world.snap.Calls = []
      ∧ s.existingCalls = [exampleCall "https://test.com" "[1]"])
    ∧ (∃ s, MatchSnapshot (exampleEnv "false" (some [exampleCall "https://test.com" "[1]"])) []
          "TestSnapshot" "works" = .ok s
      ∧ s.world.snap.updateMode = false
      ∧ s.world.snap.Calls = [exampleCall "https://test.com" "[1]"]) :=
  ⟨(MatchSnapshot_mode (exampleEnv "" none) [] "TestSnapshot" "works").2.1 rfl "127.0.0.1:4000" rfl,
   ((MatchSnapshot_mode (exampleEnv "true" (some [exampleCall "https://test.com" "[1]"])) []
      "TestSnapshot" "works").2.2 "stored" _ rfl rfl rfl).1 rfl "127.0.0.1:4000" rfl,
   ((MatchSnapshot_mode (exampleEnv "false" (some [exampleCall "https://test.com" "[1]"])) []
      "TestSnapshot" "works").2.2 "stored" _ rfl rfl rfl).2 (by decide)⟩

/-- C7: in replay mode `Finish` fails the test exactly when the framework does
not report all mocks done, and in either case neither serialises the snapshot
nor touches the file system; in record mode the outcome is the same whatever
the framework reports, and once the snapshot is serialised to `data`, `Finish`
creates the directory and writes `data` to the snapshot file. -/
theorem Finish_by_mode (env : Env) (g : Snapshot) (gockIsDone : Bool) :
    (g.updateMode = false →
      ((g.Finish env gockIsDone).fatal.isSome = true ↔ gockIsDone = false)
      ∧ (g.Finish env gockIsDone).effects = [])
    ∧ (g.updateMode = true →
      g.Finish env gockIsDone = g.Finish env (!gockIsDone)
      ∧ ∀ data, env.marshalIndent g.Calls = .ok data →
          (g.Finish env gockIsDone).effects
            = [.serialise g.Calls, .mkdirAll "__snapshots__" 0o750, .writeFile g.file data 0o600]) := by
  constructor
  · intro hm
    cases gockIsDone <;> simp [Snapshot.Finish, hm]
  · intro hm
    refine ⟨by simp [Snapshot.Finish, hm], fun data hdata => ?_⟩
    simp only [Snapshot.Finish, hm, hdata]
    cases env.writeFile g.file data <;> simp [defaultSnapshotDirectory]

theorem Finish_by_mode_witness :
    (((openedSnapshot "TestSnapshot" "works" false [exampleCall "https://test.com" "[1]"]).Finish
          (exampleEnv "" (some [])) false).fatal.isSome = true ↔ false = false)
    ∧ ((openedSnapshot "TestSnapshot" "works" false [exampleCall "https://test.com" "[1]"]).Finish
          (exampleEnv "" (some [])) false).effects = []
    ∧ ((openedSnapshot "TestSnapshot" "works" true [exampleCall "https://test.com" "[1]"]).Finish
          (exampleEnv "" none) false).effects
        = [.serialise [exampleCall "https://test.com" "[1]"], .mkdirAll "__snapshots__" 0o750,
            .writeFile "__snapshots__/TestSnapshot-works.json" "document" 0o600] :=
  ⟨((Finish_by_mode (exampleEnv "" (some []))
      (openedSnapshot "TestSnapshot" "works" false [exampleCall "https://test.com" "[1]"])
      false).1 rfl).1,
   ((Finish_by_mode (exampleEnv "" (some []))
      (openedSnapshot "TestSnapshot" "works" false [exampleCall "https://test.com" "[1]"])
      false).1 rfl).2,
   ((Finish_by_mode (exampleEnv "" none)
      (openedSnapshot "TestSnapshot" "works" true [exampleCall "https://test.com" "[1]"])
      false).2 rfl).2 "document" rfl⟩

/-! ### Replay registration -/

/-- In replay mode one static mock is registered for each stored call, after
the mocks already pending and in the order of the file. -/
theorem replaySession_mocks (env : Env) (gockPending : List Mock) (testName name : String)
    (L : List Call) :
    (replaySession env gockPending testName name L).mocks
      = gockPending ++ L.map (fun call => Mock.static (staticMock env call))
    ∧ ((replaySession env gockPending testName name L).mocks.drop gockPending.length).length
      = L.length := by
  simp [replaySession]

/-- The static mock of a stored call is given the status and the raw body of
that call as its response. -/
theorem staticMock_response (env : Env) (call : Call) :
    (staticMock env call).Status = call.MockedCall.Status
    ∧ (staticMock env call).responseJSON = call.MockedCall.Body := ⟨rfl, rfl⟩

/-- The adapter answers with the status of the call it holds and with what
`json.Marshal` makes of the raw body of that call. -/
theorem Response_of_call (env : Env) (r : recordMocker) (c : Call) (hc : r.call = some c)
    (doc : String) (hdoc : env.marshalRaw c.MockedCall.Body = .ok doc) :
    r.Response env = { StatusCode := c.MockedCall.Status, BodyBuffer := doc } := by
  simp [recordMocker.Response, hc, hdoc]

end Gocksnap
